import Mathlib

/-!
# cairo: `src/cairo-mutex-private.h`

The header is a preprocessor program.  It is embedded here as a function
`header : Config → PP` from the truth values of the five conditions tested by
its `#if`/`#elif` chain to the preprocessor state reached at its last line: the
table of macro definitions, the `typedef`s of `cairo_mutex_t`, the declarations it
emits, and the `#warning`/`#error` diagnostics it reaches.  Every `#define`
records the source line it comes from.

The operation macros are then given their run-time meaning: a use of a macro,
spelled with or without an argument list, is replaced according to the
definition in effect (function-like or object-like) and the resulting statement
is executed on a process state made of the `_cairo_mutex_initialized` flag, the
storage of the mutexes and the log of calls that leave the header.  A use that
is not replaced by a statement has no run.

Conventions.
* Processing continues after an `#error`; every diagnostic reached is recorded.
* The files brought in by `#include` are not part of the header.  What they
  contribute to the conditions is the `Config`; they are taken not to define or
  undefine the `CAIRO_MUTEX_*` names.
* `WINVER`, `_WIN32_WINNT`, `WIN32_LEAN_AND_MEAN`, `INCL_BASE` and `INCL_PM`
  (lines 83-91, 104-105) configure the system headers only and are not tracked.
-/

namespace CairoMutex

/-! ## Build configuration -/

/-- Truth value of each condition of the selection chain, in source order:
`#if CAIRO_NO_MUTEX` (58), `#elif HAVE_PTHREAD_H` (66), `#elif HAVE_WINDOWS_H` (78),
`#elif defined __OS2__` (102), `#elif CAIRO_HAS_BEOS_SURFACE` (121). -/
structure Config where
  CAIRO_NO_MUTEX : Bool
  HAVE_PTHREAD_H : Bool
  HAVE_WINDOWS_H : Bool
  __OS2__ : Bool
  CAIRO_HAS_BEOS_SURFACE : Bool
  deriving DecidableEq, Repr

/-! ## Preprocessor state -/

/-- Names of the macros the header defines, undefines or tests. -/
inductive MacroName
  | CAIRO_MUTEX_PRIVATE_H
  | CAIRO_MUTEX_NOOP
  | CAIRO_MUTEX_INITIALIZE
  | CAIRO_MUTEX_FINALIZE
  | CAIRO_MUTEX_LOCK
  | CAIRO_MUTEX_UNLOCK
  | CAIRO_MUTEX_INIT
  | CAIRO_MUTEX_FINI
  | CAIRO_MUTEX_NIL_INITIALIZER
  | CAIRO_MUTEX_USE_GENERIC_INITIALIZATION
  | CAIRO_MUTEX_DECLARE
  deriving DecidableEq, Repr

/-- The two routines declared at lines 186-187. -/
inductive Routine
  | _cairo_mutex_initialize
  | _cairo_mutex_finalize
  deriving DecidableEq, Repr

/-- Statements occurring in replacement lists.
* `skip` is the empty block `{/*no-op*/}`;
* `doWhile0 b` is `do b while (0)`;
* `ifFlag true b` is `if (_cairo_mutex_initialized) b`, and `ifFlag false b` is
  `if (!_cairo_mutex_initialized) b`;
* `call r` is `r ();`;
* `native text` is code handed to the platform (or to `memcpy`), kept verbatim. -/
inductive Stmt
  | skip
  | doWhile0 (body : Stmt)
  | ifFlag (value : Bool) (body : Stmt)
  | call (r : Routine)
  | native (text : String)
  deriving DecidableEq, Repr

/-- Replacement list of a `#define`.
* `alias m`: the single identifier `m`, rescanned when the macro is used;
* `stmt s`: a statement;
* `init text`: an initializer, kept verbatim;
* `int n`: an integer constant;
* `empty`: nothing (`#define CAIRO_MUTEX_PRIVATE_H`). -/
inductive Repl
  | alias (m : MacroName)
  | stmt (s : Stmt)
  | init (text : String)
  | int (n : Int)
  | empty
  deriving DecidableEq, Repr

/-- One `#define`: the source line of the directive, the parameter list
(`none` for an object-like definition, `some ps` for a function-like one) and
the replacement list. -/
structure MacroDef where
  line : Nat
  params : Option (List String)
  body : Repl
  deriving DecidableEq, Repr

/-- Types given to `cairo_mutex_t` by the `typedef`s of the header. -/
inductive CType
  | int
  | pthread_mutex_t
  | CRITICAL_SECTION
  | HMTX
  | voidPtr
  deriving DecidableEq, Repr

/-- Declarations emitted by the header besides the `typedef`. -/
inductive Decl
  | _cairo_beos_lock
  | _cairo_beos_unlock
  | _cairo_mutex_initialized
  | _cairo_mutex_initialize
  | _cairo_mutex_finalize
  deriving DecidableEq, Repr

/-- Diagnostics: the `#warning` of line 132, the `#error` of line 138 and the
seven `#error`s of lines 195-213 (`notDefined m` is `"m not defined"`). -/
inductive Diag
  | beosIncomplete
  | noMutexImplementation
  | notDefined (m : MacroName)
  deriving DecidableEq, Repr

/-- Preprocessor state.  `macros` holds the definitions in effect, the most
recent first; `typedefs` the `typedef ... cairo_mutex_t;` lines seen, with their
line numbers. -/
structure PP where
  macros : List (MacroName × MacroDef)
  typedefs : List (Nat × CType)
  decls : List Decl
  warnings : List Diag
  errors : List Diag
  deriving DecidableEq, Repr

namespace PP

/-- State before line 41: nothing defined. -/
def start : PP := ⟨[], [], [], [], []⟩

/-- Definition in effect for `m`, if any. -/
def lookup (pp : PP) (m : MacroName) : Option MacroDef :=
  (pp.macros.find? (fun e => e.1 = m)).map Prod.snd

/-- Test of `#ifdef m` / `defined m`. -/
def defined (pp : PP) (m : MacroName) : Bool :=
  (pp.lookup m).isSome

/-- Directive `#undef m`. -/
def undef (pp : PP) (m : MacroName) : PP :=
  { pp with macros := pp.macros.filter (fun e => e.1 ≠ m) }

/-- Directive `#define m ...`: the new definition is the one in effect. -/
def define (pp : PP) (m : MacroName) (d : MacroDef) : PP :=
  { pp with macros := (m, d) :: (pp.undef m).macros }

/-- Line `typedef t cairo_mutex_t;`. -/
def typedef (pp : PP) (line : Nat) (t : CType) : PP :=
  { pp with typedefs := pp.typedefs ++ [(line, t)] }

/-- A declaration. -/
def declare (pp : PP) (d : Decl) : PP :=
  { pp with decls := pp.decls ++ [d] }

/-- Directive `#warning`. -/
def warning (pp : PP) (d : Diag) : PP :=
  { pp with warnings := pp.warnings ++ [d] }

/-- Directive `#error`. -/
def error (pp : PP) (d : Diag) : PP :=
  { pp with errors := pp.errors ++ [d] }

/-- Test of `#if m` for a macro name `m`: an undefined name counts as `0`, a
defined one holds when its replacement list is a nonzero integer constant. -/
def ifValue (pp : PP) (m : MacroName) : Bool :=
  match pp.lookup m with
  | some d =>
    match d.body with
    | Repl.int n => decide (n ≠ 0)
    | _ => false
  | none => false

end PP

/-! ## The header -/

/-- Line 54: `do {/*no-op*/} while (0)`. -/
def noopStmt : Stmt := Stmt.doWhile0 Stmt.skip

/-- Lines 175-178: `do { if (!_cairo_mutex_initialized) _cairo_mutex_initialize (); } while(0)`. -/
def genericInitializeStmt : Stmt :=
  Stmt.doWhile0 (Stmt.ifFlag false (Stmt.call Routine._cairo_mutex_initialize))

/-- Lines 180-183: `do { if (_cairo_mutex_initialized) _cairo_mutex_finalize (); } while(0)`. -/
def genericFinalizeStmt : Stmt :=
  Stmt.doWhile0 (Stmt.ifFlag true (Stmt.call Routine._cairo_mutex_finalize))

/-- Lines 58-141: the `#if`/`#elif` chain that picks the native primitive. -/
def backendSelection (cfg : Config) (pp : PP) : PP :=
  if cfg.CAIRO_NO_MUTEX then
    pp
    |>.typedef 60 CType.int
    |>.define MacroName.CAIRO_MUTEX_INITIALIZE ⟨61, some [], Repl.alias MacroName.CAIRO_MUTEX_NOOP⟩
    |>.define MacroName.CAIRO_MUTEX_LOCK ⟨62, some ["name"], Repl.alias MacroName.CAIRO_MUTEX_NOOP⟩
    |>.define MacroName.CAIRO_MUTEX_UNLOCK ⟨63, some ["name"], Repl.alias MacroName.CAIRO_MUTEX_NOOP⟩
    |>.define MacroName.CAIRO_MUTEX_NIL_INITIALIZER ⟨64, none, Repl.int 0⟩
  else if cfg.HAVE_PTHREAD_H then
    pp
    |>.typedef 70 CType.pthread_mutex_t
    |>.define MacroName.CAIRO_MUTEX_INITIALIZE ⟨72, some [], Repl.alias MacroName.CAIRO_MUTEX_NOOP⟩
    |>.define MacroName.CAIRO_MUTEX_LOCK
        ⟨73, some ["name"], Repl.stmt (Stmt.native "pthread_mutex_lock (&name)")⟩
    |>.define MacroName.CAIRO_MUTEX_UNLOCK
        ⟨74, some ["name"], Repl.stmt (Stmt.native "pthread_mutex_unlock (&name)")⟩
    |>.define MacroName.CAIRO_MUTEX_FINI
        ⟨75, some ["mutex"], Repl.stmt (Stmt.native "pthread_mutex_destroy (mutex)")⟩
    |>.define MacroName.CAIRO_MUTEX_NIL_INITIALIZER ⟨76, none, Repl.init "PTHREAD_MUTEX_INITIALIZER"⟩
  else if cfg.HAVE_WINDOWS_H then
    pp
    |>.typedef 94 CType.CRITICAL_SECTION
    |>.define MacroName.CAIRO_MUTEX_LOCK
        ⟨96, some ["name"], Repl.stmt (Stmt.native "EnterCriticalSection (&name)")⟩
    |>.define MacroName.CAIRO_MUTEX_UNLOCK
        ⟨97, some ["name"], Repl.stmt (Stmt.native "LeaveCriticalSection (&name)")⟩
    |>.define MacroName.CAIRO_MUTEX_INIT
        ⟨98, some ["mutex"], Repl.stmt (Stmt.native "InitializeCriticalSection (mutex)")⟩
    |>.define MacroName.CAIRO_MUTEX_FINI
        ⟨99, some ["mutex"], Repl.stmt (Stmt.native "DeleteCriticalSection (mutex)")⟩
    |>.define MacroName.CAIRO_MUTEX_NIL_INITIALIZER
        ⟨100, none, Repl.init "\x7b NULL, 0, 0, NULL, NULL, 0 \x7d"⟩
  else if cfg.__OS2__ then
    pp
    |>.typedef 108 CType.HMTX
    |>.define MacroName.CAIRO_MUTEX_LOCK
        ⟨110, some ["name"], Repl.stmt (Stmt.native "DosRequestMutexSem(name, SEM_INDEFINITE_WAIT)")⟩
    |>.define MacroName.CAIRO_MUTEX_UNLOCK
        ⟨111, some ["name"], Repl.stmt (Stmt.native "DosReleaseMutexSem(name)")⟩
    |>.define MacroName.CAIRO_MUTEX_INIT
        ⟨112, some ["mutex"], Repl.stmt (Stmt.native "DosCreateMutexSem (NULL, mutex, 0L, FALSE)")⟩
    |>.define MacroName.CAIRO_MUTEX_FINI
        ⟨113, some ["mutex"], Repl.stmt (Stmt.doWhile0 (Stmt.native
          "if (0 != (mutex)) \x7b DosCloseMutexSem (*(mutex)); (mutex) = 0; \x7d"))⟩
    |>.define MacroName.CAIRO_MUTEX_NIL_INITIALIZER ⟨119, none, Repl.int 0⟩
  else if cfg.CAIRO_HAS_BEOS_SURFACE then
    pp
    |>.typedef 123 CType.voidPtr
    |>.declare Decl._cairo_beos_lock
    |>.declare Decl._cairo_beos_unlock
    |>.define MacroName.CAIRO_MUTEX_LOCK
        ⟨129, some ["name"], Repl.stmt (Stmt.native "_cairo_beos_lock (&name)")⟩
    |>.define MacroName.CAIRO_MUTEX_UNLOCK
        ⟨130, some ["name"], Repl.stmt (Stmt.native "_cairo_beos_unlock (&name)")⟩
    |>.warning Diag.beosIncomplete
  else
    pp.error Diag.noMutexImplementation

/-- Lines 145-149: `CAIRO_MUTEX_DECLARE` is defined unless it already is, the
mutex list is included, and `CAIRO_MUTEX_DECLARE` is undefined again. -/
def mutexList (pp : PP) : PP :=
  let pp1 :=
    if pp.defined MacroName.CAIRO_MUTEX_DECLARE then pp
    else pp.define MacroName.CAIRO_MUTEX_DECLARE
      ⟨146, some ["name"], Repl.init "extern cairo_mutex_t name;"⟩
  pp1.undef MacroName.CAIRO_MUTEX_DECLARE

/-- Lines 152-161: defaults of `CAIRO_MUTEX_INIT` and `CAIRO_MUTEX_FINI`. -/
def defaultInitFini (pp : PP) : PP :=
  let pp1 :=
    if pp.defined MacroName.CAIRO_MUTEX_INIT then pp
    else pp.define MacroName.CAIRO_MUTEX_INIT
      ⟨153, some ["_mutex"], Repl.stmt (Stmt.doWhile0 (Stmt.native
        ("cairo_mutex_t _tmp_mutex = CAIRO_MUTEX_NIL_INITIALIZER; " ++
         "memcpy ((_mutex), &_tmp_mutex, sizeof (_tmp_mutex));")))⟩
  if pp1.defined MacroName.CAIRO_MUTEX_FINI then pp1
  else pp1.define MacroName.CAIRO_MUTEX_FINI
    ⟨160, some ["mutex"], Repl.alias MacroName.CAIRO_MUTEX_NOOP⟩

/-- Lines 164-171: whether the generic initialization is to be used.  Note that
line 169 defines `CAIRO_MUTEX_FINALIZE` without a parameter list. -/
def chooseInitialization (pp : PP) : PP :=
  if pp.defined MacroName.CAIRO_MUTEX_INITIALIZE then
    let pp1 := pp.undef MacroName.CAIRO_MUTEX_USE_GENERIC_INITIALIZATION
    if pp1.defined MacroName.CAIRO_MUTEX_FINALIZE then pp1
    else pp1.define MacroName.CAIRO_MUTEX_FINALIZE
      ⟨169, none, Repl.alias MacroName.CAIRO_MUTEX_NOOP⟩
  else
    pp.define MacroName.CAIRO_MUTEX_USE_GENERIC_INITIALIZATION ⟨165, none, Repl.int 1⟩

/-- Lines 173-189: the generic initialization. -/
def genericInitialization (pp : PP) : PP :=
  if pp.ifValue MacroName.CAIRO_MUTEX_USE_GENERIC_INITIALIZATION then
    pp
    |>.define MacroName.CAIRO_MUTEX_INITIALIZE ⟨175, some [], Repl.stmt genericInitializeStmt⟩
    |>.define MacroName.CAIRO_MUTEX_FINALIZE ⟨180, some [], Repl.stmt genericFinalizeStmt⟩
    |>.declare Decl._cairo_mutex_initialized
    |>.declare Decl._cairo_mutex_initialize
    |>.declare Decl._cairo_mutex_finalize
  else pp

/-- The seven names tested at lines 194-214, in source order. -/
def requiredNames : List MacroName :=
  [ MacroName.CAIRO_MUTEX_INITIALIZE, MacroName.CAIRO_MUTEX_FINALIZE,
    MacroName.CAIRO_MUTEX_LOCK, MacroName.CAIRO_MUTEX_UNLOCK,
    MacroName.CAIRO_MUTEX_INIT, MacroName.CAIRO_MUTEX_FINI,
    MacroName.CAIRO_MUTEX_NIL_INITIALIZER ]

/-- One `#ifndef m` / `#error "m not defined"` / `#endif` group. -/
def requireDefined (pp : PP) (m : MacroName) : PP :=
  if pp.defined m then pp else pp.error (Diag.notDefined m)

/-- Lines 193-214: "Make sure everything we want is defined". -/
def completenessCheck (pp : PP) : PP :=
  requiredNames.foldl requireDefined pp

/-- State in which the completeness check of line 193 is reached. -/
def beforeCheck (cfg : Config) : PP :=
  PP.start
  |>.define MacroName.CAIRO_MUTEX_PRIVATE_H ⟨42, none, Repl.empty⟩
  |>.define MacroName.CAIRO_MUTEX_NOOP ⟨54, none, Repl.stmt noopStmt⟩
  |> backendSelection cfg
  |> mutexList
  |> defaultInitFini
  |> chooseInitialization
  |> genericInitialization

/-- The whole header, lines 41-216, on its first inclusion. -/
def header (cfg : Config) : PP :=
  completenessCheck (beforeCheck cfg)

/-- Whether line 173, `#if CAIRO_MUTEX_USE_GENERIC_INITIALIZATION`, holds. -/
def genericPath (cfg : Config) : Bool :=
  (header cfg).ifValue MacroName.CAIRO_MUTEX_USE_GENERIC_INITIALIZATION

/-! ## Backends -/

/-- The branches of the selection chain that define a mutex type. -/
inductive Backend
  | disabled
  | posix
  | criticalSection
  | os2Semaphore
  | beos
  deriving DecidableEq, Repr

namespace Backend

/-- First source line of the branch (its `#if` / `#elif`). -/
def firstLine : Backend → Nat
  | disabled => 58
  | posix => 66
  | criticalSection => 78
  | os2Semaphore => 102
  | beos => 121

/-- Last source line of the branch. -/
def lastLine : Backend → Nat
  | disabled => 65
  | posix => 77
  | criticalSection => 101
  | os2Semaphore => 120
  | beos => 135

/-- Whether source line `l` lies in the branch. -/
def owns (b : Backend) (l : Nat) : Bool :=
  decide (b.firstLine ≤ l) && decide (l ≤ b.lastLine)

/-- Type the branch gives to `cairo_mutex_t` (lines 60, 70, 94, 108, 123). -/
def ctype : Backend → CType
  | disabled => CType.int
  | posix => CType.pthread_mutex_t
  | criticalSection => CType.CRITICAL_SECTION
  | os2Semaphore => CType.HMTX
  | beos => CType.voidPtr

/-- The four backends the specification lists as supported. -/
def supported : Backend → Bool
  | beos => false
  | _ => true

/-- The backends whose native primitive needs initialization at run time. -/
def needsRuntimeInit : Backend → Bool
  | criticalSection => true
  | os2Semaphore => true
  | _ => false

end Backend

/-- Follows the specification, not the code: the backend is the first one
requested or detected in the fixed order disabled, POSIX, critical-section, OS/2
semaphore, BeOS; `none` is the unsupported platform. -/
def selected (cfg : Config) : Option Backend :=
  if cfg.CAIRO_NO_MUTEX then some Backend.disabled
  else if cfg.HAVE_PTHREAD_H then some Backend.posix
  else if cfg.HAVE_WINDOWS_H then some Backend.criticalSection
  else if cfg.__OS2__ then some Backend.os2Semaphore
  else if cfg.CAIRO_HAS_BEOS_SURFACE then some Backend.beos
  else none

/-- Whether the definition of `m` in effect was written by branch `b`. -/
def definedBy (pp : PP) (m : MacroName) (b : Backend) : Bool :=
  match pp.lookup m with
  | some d => b.owns d.line
  | none => false

/-- Whether backend `b` is in effect in `pp`: the only `typedef` of
`cairo_mutex_t` is the one of `b`, and the definitions of `CAIRO_MUTEX_LOCK` and
`CAIRO_MUTEX_UNLOCK` in effect are those of `b`. -/
def inEffect (pp : PP) (b : Backend) : Bool :=
  decide (pp.typedefs.map Prod.snd = [b.ctype])
    && pp.typedefs.all (fun e => b.owns e.1)
    && definedBy pp MacroName.CAIRO_MUTEX_LOCK b
    && definedBy pp MacroName.CAIRO_MUTEX_UNLOCK b

/-- The backends in effect in `pp`. -/
def backendsInEffect (pp : PP) : List Backend :=
  [Backend.disabled, Backend.posix, Backend.criticalSection, Backend.os2Semaphore,
    Backend.beos].filter (inEffect pp)

/-- Whether the definition of `m` in effect was written by the generic part of
the header (lines 152-189). -/
def definedByDefaults (pp : PP) (m : MacroName) : Bool :=
  match pp.lookup m with
  | some d => decide (152 ≤ d.line) && decide (d.line ≤ 189)
  | none => false

/-! ## Run-time meaning of the operation macros -/

/-- Life cycle of the storage of one mutex. -/
inductive HandleState
  | declared
  | ready
  | finalized
  deriving DecidableEq, Repr

/-- Memory of the process as far as the header refers to it: the flag declared
at line 185 and the statically allocated mutexes, by name. -/
structure Memory where
  _cairo_mutex_initialized : Bool
  mutexes : List (String × HandleState)
  deriving DecidableEq, Repr

/-- A call that leaves the header: one of the two routines of lines 186-187, or
native code with the actual arguments of the macro. -/
inductive Call
  | routine (r : Routine)
  | native (text : String) (args : List String)
  deriving DecidableEq, Repr

/-- Process state: the memory and the calls made so far, oldest first. -/
structure Proc where
  mem : Memory
  calls : List Call
  deriving DecidableEq, Repr

/-- What the code outside the header does to the memory: the two routines, and
the native code reached by the backend macros. -/
structure Externs where
  routine : Routine → Memory → Memory
  native : String → List String → Memory → Memory

/-- Execution of a statement of a replacement list, `args` being the actual
arguments of the macro. -/
def exec (ext : Externs) (args : List String) : Stmt → Proc → Proc
  | Stmt.skip, r => r
  | Stmt.doWhile0 body, r => exec ext args body r
  | Stmt.ifFlag value body, r =>
    if r.mem._cairo_mutex_initialized = value then exec ext args body r else r
  | Stmt.call rt, r => ⟨ext.routine rt r.mem, r.calls ++ [Call.routine rt]⟩
  | Stmt.native text, r => ⟨ext.native text args r.mem, r.calls ++ [Call.native text args]⟩

/-- Rescanning of a replacement list: an `alias` of an object-like macro is
replaced by that macro's replacement list, at most `fuel` times. -/
def resolve (pp : PP) : Nat → Repl → Option Stmt
  | _, Repl.stmt s => some s
  | fuel + 1, Repl.alias m =>
    match pp.lookup m with
    | some d => if d.params.isNone then resolve pp fuel d.body else none
    | none => none
  | _, _ => none

/-- The statement the replacement list of macro `m` stands for once rescanned,
if `m` is defined as one. -/
def expansion (pp : PP) (m : MacroName) : Option Stmt :=
  (pp.lookup m).bind (fun d => resolve pp pp.macros.length d.body)

/-- Whether a use of a macro gets replaced by a statement, given how the use is
spelled: `args = some as` is the name followed by a parenthesised list of
arguments, `args = none` is the bare name.
* A function-like definition replaces the name only when an argument list of
  the right length follows; the bare name is left alone and stays an identifier
  nothing declares.
* An object-like definition replaces the bare name.  Followed by an argument
  list the name is replaced all the same and the list stays behind it, as in
  `do {/*no-op*/} while (0) ()`, which is not a statement. -/
def MacroDef.accepts (d : MacroDef) : Option (List String) → Bool
  | some as =>
    match d.params with
    | some ps => decide (ps.length = as.length)
    | none => false
  | none => d.params.isNone

/-- Execution of a use of macro `m` spelled with `args` (see `MacroDef.accepts`);
`none` when the use is not replaced by a statement, that is, when the
translation unit holding it does not compile. -/
def invoke (ext : Externs) (pp : PP) (m : MacroName) (args : Option (List String))
    (r : Proc) : Option Proc :=
  match pp.lookup m with
  | some d =>
    if d.accepts args then (expansion pp m).map (fun s => exec ext (args.getD []) s r)
    else none
  | none => none

/-- The statement `CAIRO_MUTEX_INITIALIZE ();` in a build with configuration `cfg`. -/
def CAIRO_MUTEX_INITIALIZE (ext : Externs) (cfg : Config) (r : Proc) : Option Proc :=
  invoke ext (header cfg) MacroName.CAIRO_MUTEX_INITIALIZE (some []) r

/-- The statement `CAIRO_MUTEX_FINALIZE ();`, spelled as line 180 defines the
macro and as every `CAIRO_MUTEX_INITIALIZE` is defined (lines 61, 72, 175). -/
def CAIRO_MUTEX_FINALIZE (ext : Externs) (cfg : Config) (r : Proc) : Option Proc :=
  invoke ext (header cfg) MacroName.CAIRO_MUTEX_FINALIZE (some []) r

/-- The statement `CAIRO_MUTEX_FINALIZE;`, without an argument list: the only
spelling the default of line 169 replaces. -/
def CAIRO_MUTEX_FINALIZE_bare (ext : Externs) (cfg : Config) (r : Proc) : Option Proc :=
  invoke ext (header cfg) MacroName.CAIRO_MUTEX_FINALIZE none r

/-- The statement `CAIRO_MUTEX_LOCK (name);`. -/
def CAIRO_MUTEX_LOCK (ext : Externs) (cfg : Config) (name : String) (r : Proc) : Option Proc :=
  invoke ext (header cfg) MacroName.CAIRO_MUTEX_LOCK (some [name]) r

/-- The statement `CAIRO_MUTEX_UNLOCK (name);`. -/
def CAIRO_MUTEX_UNLOCK (ext : Externs) (cfg : Config) (name : String) (r : Proc) : Option Proc :=
  invoke ext (header cfg) MacroName.CAIRO_MUTEX_UNLOCK (some [name]) r

/-- The statement `CAIRO_MUTEX_INIT (mutex);`. -/
def CAIRO_MUTEX_INIT (ext : Externs) (cfg : Config) (mutex : String) (r : Proc) : Option Proc :=
  invoke ext (header cfg) MacroName.CAIRO_MUTEX_INIT (some [mutex]) r

/-- The statement `CAIRO_MUTEX_FINI (mutex);`. -/
def CAIRO_MUTEX_FINI (ext : Externs) (cfg : Config) (mutex : String) (r : Proc) : Option Proc :=
  invoke ext (header cfg) MacroName.CAIRO_MUTEX_FINI (some [mutex]) r

/-- `n` consecutive runs of an operation. -/
def repeatOp (f : Proc → Option Proc) : Nat → Proc → Option Proc
  | 0, r => some r
  | n + 1, r => (f r).bind (repeatOp f n)

/-- Number of runs of the setup routine `_cairo_mutex_initialize` so far. -/
def setupRuns (r : Proc) : Nat :=
  r.calls.count (Call.routine Routine._cairo_mutex_initialize)

/-- Number of runs of the teardown routine `_cairo_mutex_finalize` so far. -/
def teardownRuns (r : Proc) : Nat :=
  r.calls.count (Call.routine Routine._cairo_mutex_finalize)

/-- Process state right after the call `_cairo_mutex_initialize ();` of line 177. -/
def afterSetup (ext : Externs) (r : Proc) : Proc :=
  exec ext [] (Stmt.call Routine._cairo_mutex_initialize) r

/-- Process state right after the call `_cairo_mutex_finalize ();` of line 182. -/
def afterTeardown (ext : Externs) (r : Proc) : Proc :=
  exec ext [] (Stmt.call Routine._cairo_mutex_finalize) r

/-- The setup routine sets the flag. -/
def Externs.SetsFlag (ext : Externs) : Prop :=
  ∀ m, (ext.routine Routine._cairo_mutex_initialize m)._cairo_mutex_initialized = true

/-- The teardown routine clears the flag. -/
def Externs.ClearsFlag (ext : Externs) : Prop :=
  ∀ m, (ext.routine Routine._cairo_mutex_finalize m)._cairo_mutex_initialized = false

/-- Modelled from the spec: the body of `_cairo_mutex_initialize`, which line 186
only declares.  Spec 4.1: the setup routine "brings every declared handle into
a valid locked-capable state", "then sets the flag true". -/
def _cairo_mutex_initialize (m : Memory) : Memory :=
  { _cairo_mutex_initialized := true
    mutexes := m.mutexes.map (fun e => (e.1, HandleState.ready)) }

/-- Modelled from the spec: the body of `_cairo_mutex_finalize`, which line 187
only declares.  Spec 4.1: "The paired finalize routine reverses this when the
flag is true and clears it." -/
def _cairo_mutex_finalize (m : Memory) : Memory :=
  { _cairo_mutex_initialized := false
    mutexes := m.mutexes.map (fun e => (e.1, HandleState.finalized)) }

/-- Modelled from the spec: the code outside the header, with the two routines
as the specification describes them; `native` is what the platform's primitives
do to the memory, about which the specification says nothing. -/
def specExterns (native : String → List String → Memory → Memory) : Externs where
  routine := fun rt =>
    match rt with
    | Routine._cairo_mutex_initialize => _cairo_mutex_initialize
    | Routine._cairo_mutex_finalize => _cairo_mutex_finalize
  native := native

/-- Native primitives that leave the memory the header refers to alone. -/
def inertNative : String → List String → Memory → Memory :=
  fun _ _ m => m

/-- Process state at program start: the flag is false, the mutexes named are
declared, nothing has been called. -/
def freshProc (names : List String) : Proc :=
  ⟨⟨false, names.map (fun n => (n, HandleState.declared))⟩, []⟩

/-- The two process-wide operations. -/
inductive Op
  | initializeOp
  | finalizeOp
  deriving DecidableEq, Repr

/-- One process-wide operation. -/
def runOp (ext : Externs) (cfg : Config) : Op → Proc → Option Proc
  | Op.initializeOp, r => CAIRO_MUTEX_INITIALIZE ext cfg r
  | Op.finalizeOp, r => CAIRO_MUTEX_FINALIZE ext cfg r

/-- A sequence of process-wide operations, in order. -/
def runOps (ext : Externs) (cfg : Config) : List Op → Proc → Option Proc
  | [], r => some r
  | op :: ops, r => (runOp ext cfg op r).bind (runOps ext cfg ops)

/-- The routine calls of a log, in order. -/
def routineCalls : List Call → List Routine
  | [] => []
  | Call.routine rt :: cs => rt :: routineCalls cs
  | Call.native _ _ :: cs => routineCalls cs

/-- Whether a sequence of routine runs alternates strictly; `expectSetup` says
whether the next run has to be the setup (`true`) or the teardown (`false`). -/
def alternates : Bool → List Routine → Bool
  | _, [] => true
  | true, Routine._cairo_mutex_initialize :: rest => alternates false rest
  | false, Routine._cairo_mutex_finalize :: rest => alternates true rest
  | _, _ :: _ => false

/-! ## Configurations used as concrete inputs -/

/-- `CAIRO_NO_MUTEX` requested on a platform that also has pthreads. -/
def disabledCfg : Config := ⟨true, true, false, false, false⟩

/-- A POSIX platform. -/
def posixCfg : Config := ⟨false, true, false, false, false⟩

/-- A Windows platform. -/
def windowsCfg : Config := ⟨false, false, true, false, false⟩

/-- An OS/2 platform. -/
def os2Cfg : Config := ⟨false, false, false, true, false⟩

/-- A BeOS platform. -/
def beosCfg : Config := ⟨false, false, false, false, true⟩

/-! ## Build-time lemmas -/

/-- The condition of line 173 in terms of the configuration: the generic
initialization is compiled in whenever neither of the first two branches is
taken, the BeOS and the unsupported configurations included. -/
theorem genericPath_iff_flags (cfg : Config) :
    genericPath cfg = true ↔ (cfg.CAIRO_NO_MUTEX = false ∧ cfg.HAVE_PTHREAD_H = false) := by
  rcases cfg with ⟨a, b, c, d, e⟩
  cases a <;> cases b <;> cases c <;> cases d <;> cases e <;> decide

/-- A BeOS platform: the branch of lines 121-134 only warns, and the header is
rejected by the check of line 212, the branch defining no
`CAIRO_MUTEX_NIL_INITIALIZER`. -/
theorem beos_rejected :
    (header beosCfg).warnings = [Diag.beosIncomplete]
    ∧ (header beosCfg).errors = [Diag.notDefined MacroName.CAIRO_MUTEX_NIL_INITIALIZER] := by
  decide

/-- A platform with no flag set: the `#error` of line 138 and, processing going
on, those of lines 201, 204 and 213. -/
theorem unsupported_rejected :
    (header ⟨false, false, false, false, false⟩).errors
      = [Diag.noMutexImplementation, Diag.notDefined MacroName.CAIRO_MUTEX_LOCK,
          Diag.notDefined MacroName.CAIRO_MUTEX_UNLOCK,
          Diag.notDefined MacroName.CAIRO_MUTEX_NIL_INITIALIZER] := by
  decide

/-- On a Windows platform `CAIRO_MUTEX_INIT (mutex)` is the native call of line 98. -/
theorem windows_init (ext : Externs) (mutex : String) (r : Proc) :
    CAIRO_MUTEX_INIT ext windowsCfg mutex r
      = some ⟨ext.native "InitializeCriticalSection (mutex)" [mutex] r.mem,
          r.calls ++ [Call.native "InitializeCriticalSection (mutex)" [mutex]]⟩ := by
  rfl

/-- Under the generic initialization the two process-wide macros are the
function-like, flag-guarded definitions of lines 175-183, and the flag and the
two routines are declared. -/
theorem generic_lookups (cfg : Config) (hgen : genericPath cfg = true) :
    (header cfg).lookup MacroName.CAIRO_MUTEX_INITIALIZE
        = some ⟨175, some [], Repl.stmt (Stmt.doWhile0
            (Stmt.ifFlag false (Stmt.call Routine._cairo_mutex_initialize)))⟩
    ∧ (header cfg).lookup MacroName.CAIRO_MUTEX_FINALIZE
        = some ⟨180, some [], Repl.stmt (Stmt.doWhile0
            (Stmt.ifFlag true (Stmt.call Routine._cairo_mutex_finalize)))⟩
    ∧ Decl._cairo_mutex_initialized ∈ (header cfg).decls
    ∧ Decl._cairo_mutex_initialize ∈ (header cfg).decls
    ∧ Decl._cairo_mutex_finalize ∈ (header cfg).decls := by
  rcases cfg with ⟨a, b, c, d, e⟩
  cases a <;> cases b <;> cases c <;> cases d <;> cases e <;>
    first
      | exact absurd hgen (by decide)
      | decide

/-- Without the generic initialization neither the flag nor the routines are
declared, `CAIRO_MUTEX_INITIALIZE` is the function-like no-op of line 61 or 72,
and `CAIRO_MUTEX_FINALIZE` is the object-like default of line 169. -/
theorem static_lookups (cfg : Config) (hgen : genericPath cfg = false) :
    Decl._cairo_mutex_initialized ∉ (header cfg).decls
    ∧ Decl._cairo_mutex_initialize ∉ (header cfg).decls
    ∧ Decl._cairo_mutex_finalize ∉ (header cfg).decls
    ∧ ((header cfg).lookup MacroName.CAIRO_MUTEX_INITIALIZE
          = some ⟨61, some [], Repl.alias MacroName.CAIRO_MUTEX_NOOP⟩
        ∨ (header cfg).lookup MacroName.CAIRO_MUTEX_INITIALIZE
          = some ⟨72, some [], Repl.alias MacroName.CAIRO_MUTEX_NOOP⟩)
    ∧ (header cfg).lookup MacroName.CAIRO_MUTEX_FINALIZE
        = some ⟨169, none, Repl.alias MacroName.CAIRO_MUTEX_NOOP⟩ := by
  rcases cfg with ⟨a, b, c, d, e⟩
  cases a <;> cases b <;> cases c <;> cases d <;> cases e <;>
    first
      | exact absurd hgen (by decide)
      | decide

/-- Without the generic initialization `CAIRO_MUTEX_INITIALIZE ();` does nothing. -/
theorem static_initialize_noop (ext : Externs) (cfg : Config)
    (hgen : genericPath cfg = false) (r : Proc) :
    CAIRO_MUTEX_INITIALIZE ext cfg r = some r := by
  rcases cfg with ⟨a, b, c, d, e⟩
  cases a <;> cases b <;> cases c <;> cases d <;> cases e <;>
    first
      | exact absurd hgen (by decide)
      | rfl

/-- Without the generic initialization `CAIRO_MUTEX_FINALIZE ();` is not replaced
by a statement, the definition of line 169 being object-like; the bare
`CAIRO_MUTEX_FINALIZE;` is the no-op. -/
theorem static_finalize_spellings (ext : Externs) (cfg : Config)
    (hgen : genericPath cfg = false) (r : Proc) :
    CAIRO_MUTEX_FINALIZE ext cfg r = none
    ∧ CAIRO_MUTEX_FINALIZE_bare ext cfg r = some r := by
  rcases cfg with ⟨a, b, c, d, e⟩
  cases a <;> cases b <;> cases c <;> cases d <;> cases e <;>
    first
      | exact absurd hgen (by decide)
      | exact ⟨rfl, rfl⟩

/-- With `CAIRO_NO_MUTEX` the generic initialization is not compiled in. -/
theorem disabled_not_generic (cfg : Config) (h : cfg.CAIRO_NO_MUTEX = true) :
    genericPath cfg = false := by
  rcases cfg with ⟨a, b, c, d, e⟩
  cases a <;> cases b <;> cases c <;> cases d <;> cases e <;>
    first
      | exact absurd h (by decide)
      | decide

/-- With `CAIRO_NO_MUTEX` the handle type is `int`, and the definitions in effect
of the operation macros are those of lines 61-63 and the defaults of lines 160
and 169, each with `CAIRO_MUTEX_NOOP` for replacement list. -/
theorem disabled_lookups (cfg : Config) (h : cfg.CAIRO_NO_MUTEX = true) :
    (header cfg).typedefs = [(60, CType.int)]
    ∧ (header cfg).lookup MacroName.CAIRO_MUTEX_NOOP
        = some ⟨54, none, Repl.stmt (Stmt.doWhile0 Stmt.skip)⟩
    ∧ (header cfg).lookup MacroName.CAIRO_MUTEX_INITIALIZE
        = some ⟨61, some [], Repl.alias MacroName.CAIRO_MUTEX_NOOP⟩
    ∧ (header cfg).lookup MacroName.CAIRO_MUTEX_LOCK
        = some ⟨62, some ["name"], Repl.alias MacroName.CAIRO_MUTEX_NOOP⟩
    ∧ (header cfg).lookup MacroName.CAIRO_MUTEX_UNLOCK
        = some ⟨63, some ["name"], Repl.alias MacroName.CAIRO_MUTEX_NOOP⟩
    ∧ (header cfg).lookup MacroName.CAIRO_MUTEX_FINI
        = some ⟨160, some ["mutex"], Repl.alias MacroName.CAIRO_MUTEX_NOOP⟩
    ∧ (header cfg).lookup MacroName.CAIRO_MUTEX_FINALIZE
        = some ⟨169, none, Repl.alias MacroName.CAIRO_MUTEX_NOOP⟩ := by
  rcases cfg with ⟨a, b, c, d, e⟩
  cases a <;> cases b <;> cases c <;> cases d <;> cases e <;>
    first
      | exact absurd h (by decide)
      | decide

/-- With `CAIRO_NO_MUTEX` the handle operations, spelled with their argument, do
nothing. -/
theorem disabled_handle_operations (ext : Externs) (cfg : Config)
    (h : cfg.CAIRO_NO_MUTEX = true) (name : String) (r : Proc) :
    CAIRO_MUTEX_LOCK ext cfg name r = some r
    ∧ CAIRO_MUTEX_UNLOCK ext cfg name r = some r
    ∧ CAIRO_MUTEX_FINI ext cfg name r = some r := by
  rcases cfg with ⟨a, b, c, d, e⟩
  cases a <;> cases b <;> cases c <;> cases d <;> cases e <;>
    first
      | exact absurd h (by decide)
      | exact ⟨rfl, rfl, rfl⟩

/-! ## Build-time claims -/

/-- C1: for every truth assignment to the five flags the selection has exactly
one outcome, fixed by the flags in the order disabled, POSIX, critical-section,
OS/2 semaphore, BeOS, unsupported: the backends whose `cairo_mutex_t`,
`CAIRO_MUTEX_LOCK` and `CAIRO_MUTEX_UNLOCK` are in effect are exactly the selected
one (so at most one, and `CAIRO_NO_MUTEX` wins), and the "no mutex implementation"
error is reached exactly when none is selected, in which case no mutex type and
no lock or unlock macro is defined. -/
theorem selection_yields_one_outcome (cfg : Config) :
    backendsInEffect (header cfg) = (selected cfg).toList
    ∧ (Diag.noMutexImplementation ∈ (header cfg).errors ↔ selected cfg = none)
    ∧ (backendsInEffect (header cfg)).length
        + (if Diag.noMutexImplementation ∈ (header cfg).errors then 1 else 0) = 1
    ∧ (cfg.CAIRO_NO_MUTEX = true → selected cfg = some Backend.disabled)
    ∧ (selected cfg = none →
        (header cfg).typedefs = []
        ∧ (header cfg).defined MacroName.CAIRO_MUTEX_LOCK = false
        ∧ (header cfg).defined MacroName.CAIRO_MUTEX_UNLOCK = false) := by
  rcases cfg with ⟨a, b, c, d, e⟩
  cases a <;> cases b <;> cases c <;> cases d <;> cases e <;> decide

/-- C2: some `#error` of the header is reached if and only if `CAIRO_NO_MUTEX`
is false and none of POSIX threads, Windows critical sections and OS/2
semaphores is detected. -/
theorem header_rejected_iff (cfg : Config) :
    (header cfg).errors ≠ [] ↔
      (cfg.CAIRO_NO_MUTEX = false ∧ cfg.HAVE_PTHREAD_H = false
        ∧ cfg.HAVE_WINDOWS_H = false ∧ cfg.__OS2__ = false) := by
  rcases cfg with ⟨a, b, c, d, e⟩
  cases a <;> cases b <;> cases c <;> cases d <;> cases e <;> decide

/-- C9: when the disabled, POSIX, critical-section or OS/2 semaphore backend is
selected, each of the seven required names is defined when the completeness
check is reached, by the backend's branch or by the generic defaults, and no
`#error` fires. -/
theorem required_names_defined (cfg : Config) (b : Backend)
    (hsel : selected cfg = some b) (hsup : b.supported = true) :
    (∀ m ∈ requiredNames,
        (beforeCheck cfg).defined m = true
        ∧ (definedBy (beforeCheck cfg) m b = true ∨ definedByDefaults (beforeCheck cfg) m = true))
    ∧ (header cfg).errors = [] := by
  rcases cfg with ⟨a, p, c, d, e⟩
  cases a <;> cases p <;> cases c <;> cases d <;> cases e <;> cases b <;>
    first
      | exact absurd hsel (by decide)
      | exact absurd hsup (by decide)
      | decide

/-- Witness of C9 on a Windows platform. -/
theorem required_names_defined_witness :
    selected windowsCfg = some Backend.criticalSection
    ∧ Backend.criticalSection.supported = true
    ∧ (∀ m ∈ requiredNames,
        (beforeCheck windowsCfg).defined m = true
        ∧ (definedBy (beforeCheck windowsCfg) m Backend.criticalSection = true
            ∨ definedByDefaults (beforeCheck windowsCfg) m = true))
    ∧ (header windowsCfg).errors = [] :=
  ⟨by decide, by decide,
    required_names_defined windowsCfg Backend.criticalSection (by decide) (by decide)⟩

/-! ## Run-time lemmas -/

/-- Among the supported backends line 173 holds exactly for those that need
initialization at run time. -/
theorem genericPath_iff_needsRuntimeInit (cfg : Config) (b : Backend)
    (hsel : selected cfg = some b) (hsup : b.supported = true) :
    genericPath cfg = true ↔ b.needsRuntimeInit = true := by
  rcases cfg with ⟨a, p, c, d, e⟩
  cases a <;> cases p <;> cases c <;> cases d <;> cases e <;> cases b <;>
    first
      | exact absurd hsel (by decide)
      | exact absurd hsup (by decide)
      | decide

/-- Effect of the generic `CAIRO_MUTEX_INITIALIZE ()`. -/
theorem initialize_generic (ext : Externs) (cfg : Config) (hgen : genericPath cfg = true)
    (r : Proc) :
    CAIRO_MUTEX_INITIALIZE ext cfg r
      = some (if r.mem._cairo_mutex_initialized = false then afterSetup ext r else r) := by
  rcases cfg with ⟨a, b, c, d, e⟩
  cases a <;> cases b <;> cases c <;> cases d <;> cases e <;>
    first
      | exact absurd hgen (by decide)
      | rfl

/-- Effect of the generic `CAIRO_MUTEX_FINALIZE ()`. -/
theorem finalize_generic (ext : Externs) (cfg : Config) (hgen : genericPath cfg = true)
    (r : Proc) :
    CAIRO_MUTEX_FINALIZE ext cfg r
      = some (if r.mem._cairo_mutex_initialized = true then afterTeardown ext r else r) := by
  rcases cfg with ⟨a, b, c, d, e⟩
  cases a <;> cases b <;> cases c <;> cases d <;> cases e <;>
    first
      | exact absurd hgen (by decide)
      | rfl

theorem afterSetup_calls (ext : Externs) (r : Proc) :
    (afterSetup ext r).calls = r.calls ++ [Call.routine Routine._cairo_mutex_initialize] := rfl

theorem afterSetup_mem (ext : Externs) (r : Proc) :
    (afterSetup ext r).mem = ext.routine Routine._cairo_mutex_initialize r.mem := rfl

theorem afterTeardown_calls (ext : Externs) (r : Proc) :
    (afterTeardown ext r).calls = r.calls ++ [Call.routine Routine._cairo_mutex_finalize] := rfl

theorem afterTeardown_mem (ext : Externs) (r : Proc) :
    (afterTeardown ext r).mem = ext.routine Routine._cairo_mutex_finalize r.mem := rfl

theorem setupRuns_afterSetup (ext : Externs) (r : Proc) :
    setupRuns (afterSetup ext r) = setupRuns r + 1 := by
  simp [setupRuns, afterSetup_calls, List.count_append]

theorem teardownRuns_afterSetup (ext : Externs) (r : Proc) :
    teardownRuns (afterSetup ext r) = teardownRuns r := by
  simp [teardownRuns, afterSetup_calls, List.count_append]

theorem setupRuns_afterTeardown (ext : Externs) (r : Proc) :
    setupRuns (afterTeardown ext r) = setupRuns r := by
  simp [setupRuns, afterTeardown_calls, List.count_append]

theorem teardownRuns_afterTeardown (ext : Externs) (r : Proc) :
    teardownRuns (afterTeardown ext r) = teardownRuns r + 1 := by
  simp [teardownRuns, afterTeardown_calls, List.count_append]

/-- Once the flag is set, further generic initialize calls do nothing. -/
theorem repeat_initialize_of_set (ext : Externs) (cfg : Config) (hgen : genericPath cfg = true)
    (n : Nat) (r : Proc) (hr : r.mem._cairo_mutex_initialized = true) :
    repeatOp (CAIRO_MUTEX_INITIALIZE ext cfg) n r = some r := by
  induction n with
  | zero => rfl
  | succ n ih => simp [repeatOp, initialize_generic ext cfg hgen, hr, ih]

/-- Once the flag is clear, further generic finalize calls do nothing. -/
theorem repeat_finalize_of_clear (ext : Externs) (cfg : Config) (hgen : genericPath cfg = true)
    (n : Nat) (r : Proc) (hr : r.mem._cairo_mutex_initialized = false) :
    repeatOp (CAIRO_MUTEX_FINALIZE ext cfg) n r = some r := by
  induction n with
  | zero => rfl
  | succ n ih => simp [repeatOp, finalize_generic ext cfg hgen, hr, ih]

/-- Repeating an operation that does nothing does nothing. -/
theorem repeat_of_fixed (f : Proc → Option Proc) (hf : ∀ r, f r = some r) (n : Nat) (r : Proc) :
    repeatOp f n r = some r := by
  induction n with
  | zero => rfl
  | succ n ih => simp [repeatOp, hf, ih]

theorem count_map_routine (x : Routine) (l : List Routine) :
    (l.map Call.routine).count (Call.routine x) = l.count x := by
  induction l with
  | nil => rfl
  | cons y ys ih => simp [List.count_cons, ih]

theorem routineCalls_map (l : List Routine) : routineCalls (l.map Call.routine) = l := by
  induction l with
  | nil => rfl
  | cons y ys ih => simp [routineCalls, ih]

/-- Any sequence of generic initialize / finalize calls runs to completion, and
the routine runs it adds to the log alternate, starting with the setup exactly
when the flag was clear; the runs it adds are balanced against the flag. -/
theorem runOps_generic (ext : Externs) (cfg : Config) (hgen : genericPath cfg = true)
    (hset : ext.SetsFlag) (hclr : ext.ClearsFlag) (ops : List Op) :
    ∀ r : Proc, ∃ (r' : Proc) (added : List Routine),
      runOps ext cfg ops r = some r'
      ∧ r'.calls = r.calls ++ added.map Call.routine
      ∧ alternates (!r.mem._cairo_mutex_initialized) added = true
      ∧ added.count Routine._cairo_mutex_initialize
            + (if r.mem._cairo_mutex_initialized = true then 1 else 0)
          = added.count Routine._cairo_mutex_finalize
            + (if r'.mem._cairo_mutex_initialized = true then 1 else 0) := by
  induction ops with
  | nil =>
    intro r
    refine ⟨r, [], rfl, by simp, ?_, by simp⟩
    cases r.mem._cairo_mutex_initialized <;> rfl
  | cons op ops ih =>
    intro r
    cases op with
    | initializeOp =>
      cases hflag : r.mem._cairo_mutex_initialized with
      | false =>
        obtain ⟨r', added, hrun, hcalls, halt, hcount⟩ := ih (afterSetup ext r)
        have hnew : (afterSetup ext r).mem._cairo_mutex_initialized = true := by
          rw [afterSetup_mem]; exact hset _
        rw [hnew] at halt hcount
        refine ⟨r', Routine._cairo_mutex_initialize :: added, ?_, ?_, ?_, ?_⟩
        · simp [runOps, runOp, initialize_generic ext cfg hgen, hflag, hrun]
        · rw [hcalls, afterSetup_calls]; simp
        · simpa [alternates] using halt
        · simp at hcount ⊢
          omega
      | true =>
        obtain ⟨r', added, hrun, hcalls, halt, hcount⟩ := ih r
        rw [hflag] at halt hcount
        refine ⟨r', added, ?_, hcalls, halt, hcount⟩
        simp [runOps, runOp, initialize_generic ext cfg hgen, hflag, hrun]
    | finalizeOp =>
      cases hflag : r.mem._cairo_mutex_initialized with
      | false =>
        obtain ⟨r', added, hrun, hcalls, halt, hcount⟩ := ih r
        rw [hflag] at halt hcount
        refine ⟨r', added, ?_, hcalls, halt, hcount⟩
        simp [runOps, runOp, finalize_generic ext cfg hgen, hflag, hrun]
      | true =>
        obtain ⟨r', added, hrun, hcalls, halt, hcount⟩ := ih (afterTeardown ext r)
        have hnew : (afterTeardown ext r).mem._cairo_mutex_initialized = false := by
          rw [afterTeardown_mem]; exact hclr _
        rw [hnew] at halt hcount
        refine ⟨r', Routine._cairo_mutex_finalize :: added, ?_, ?_, ?_, ?_⟩
        · simp [runOps, runOp, finalize_generic ext cfg hgen, hflag, hrun]
        · rw [hcalls, afterTeardown_calls]; simp
        · simpa [alternates] using halt
        · simp at hcount ⊢
          omega

/-- The spec-modelled setup routine sets the flag. -/
theorem specExterns_setsFlag (native : String → List String → Memory → Memory) :
    (specExterns native).SetsFlag := fun _ => rfl

/-- The spec-modelled teardown routine clears the flag. -/
theorem specExterns_clearsFlag (native : String → List String → Memory → Memory) :
    (specExterns native).ClearsFlag := fun _ => rfl

/-- The default of line 169 defines `CAIRO_MUTEX_FINALIZE` without a parameter
list, whereas line 180 defines it with an empty one, like every definition of
`CAIRO_MUTEX_INITIALIZE` (lines 61, 72, 175). -/
theorem finalize_definition_forms (cfg : Config) :
    ((header cfg).lookup MacroName.CAIRO_MUTEX_FINALIZE).map MacroDef.params
        = some (if genericPath cfg = true then some [] else none)
    ∧ ((header cfg).lookup MacroName.CAIRO_MUTEX_INITIALIZE).map MacroDef.params
        = some (some []) := by
  rcases cfg with ⟨a, b, c, d, e⟩
  cases a <;> cases b <;> cases c <;> cases d <;> cases e <;> decide

/-- Generic `CAIRO_MUTEX_INITIALIZE ()` with a setup routine that sets the flag. -/
theorem initialize_of_setsFlag (ext : Externs) (cfg : Config)
    (hgen : genericPath cfg = true) (hset : ext.SetsFlag) (r : Proc) :
    ∃ r', CAIRO_MUTEX_INITIALIZE ext cfg r = some r'
      ∧ (r'.calls = r.calls ++ [Call.routine Routine._cairo_mutex_initialize]
          ↔ r.mem._cairo_mutex_initialized = false)
      ∧ (setupRuns r' = setupRuns r + 1 ↔ r.mem._cairo_mutex_initialized = false)
      ∧ (r.mem._cairo_mutex_initialized = false → r' = afterSetup ext r)
      ∧ (r.mem._cairo_mutex_initialized = true → r' = r)
      ∧ r'.mem._cairo_mutex_initialized = true := by
  cases hflag : r.mem._cairo_mutex_initialized with
  | false =>
    refine ⟨afterSetup ext r, ?_, ?_, ?_, ?_, ?_, ?_⟩
    · simp [initialize_generic ext cfg hgen, hflag]
    · simp [afterSetup_calls]
    · simp [setupRuns_afterSetup]
    · intro _; rfl
    · intro h; cases h
    · rw [afterSetup_mem]; exact hset _
  | true =>
    refine ⟨r, ?_, ?_, ?_, ?_, ?_, hflag⟩
    · simp [initialize_generic ext cfg hgen, hflag]
    · simp
    · simp
    · intro h; cases h
    · intro _; rfl

/-- Generic `CAIRO_MUTEX_FINALIZE ()` with a teardown routine that clears the flag. -/
theorem finalize_of_clearsFlag (ext : Externs) (cfg : Config)
    (hgen : genericPath cfg = true) (hclr : ext.ClearsFlag) (r : Proc) :
    ∃ r', CAIRO_MUTEX_FINALIZE ext cfg r = some r'
      ∧ (r'.calls = r.calls ++ [Call.routine Routine._cairo_mutex_finalize]
          ↔ r.mem._cairo_mutex_initialized = true)
      ∧ (teardownRuns r' = teardownRuns r + 1 ↔ r.mem._cairo_mutex_initialized = true)
      ∧ (r.mem._cairo_mutex_initialized = true → r' = afterTeardown ext r)
      ∧ (r.mem._cairo_mutex_initialized = false → r' = r)
      ∧ r'.mem._cairo_mutex_initialized = false := by
  cases hflag : r.mem._cairo_mutex_initialized with
  | false =>
    refine ⟨r, ?_, ?_, ?_, ?_, ?_, hflag⟩
    · simp [finalize_generic ext cfg hgen, hflag]
    · simp
    · simp
    · intro h; cases h
    · intro _; rfl
  | true =>
    refine ⟨afterTeardown ext r, ?_, ?_, ?_, ?_, ?_, ?_⟩
    · simp [finalize_generic ext cfg hgen, hflag]
    · simp [afterTeardown_calls]
    · simp [teardownRuns_afterTeardown]
    · intro _; rfl
    · intro h; cases h
    · rw [afterTeardown_mem]; exact hclr _

/-- One generic initialize followed by `j + 1` generic finalize calls. -/
theorem finalize_after_initialize (ext : Externs) (cfg : Config)
    (hgen : genericPath cfg = true) (hset : ext.SetsFlag) (hclr : ext.ClearsFlag)
    (j : Nat) (r : Proc) :
    ∃ r1 r2, CAIRO_MUTEX_INITIALIZE ext cfg r = some r1
      ∧ CAIRO_MUTEX_FINALIZE ext cfg r1 = some r2
      ∧ repeatOp (CAIRO_MUTEX_FINALIZE ext cfg) (j + 1) r1 = some r2
      ∧ teardownRuns r2 = teardownRuns r1 + 1
      ∧ setupRuns r2 = setupRuns r1
      ∧ CAIRO_MUTEX_FINALIZE ext cfg r2 = some r2 := by
  obtain ⟨r1, hr1, -, -, -, -, hflag1⟩ := initialize_of_setsFlag ext cfg hgen hset r
  have hflag2 : (afterTeardown ext r1).mem._cairo_mutex_initialized = false := by
    rw [afterTeardown_mem]; exact hclr _
  have hfin1 : CAIRO_MUTEX_FINALIZE ext cfg r1 = some (afterTeardown ext r1) := by
    simp [finalize_generic ext cfg hgen, hflag1]
  refine ⟨r1, afterTeardown ext r1, hr1, hfin1, ?_, teardownRuns_afterTeardown ext r1,
    setupRuns_afterTeardown ext r1, ?_⟩
  · simp [repeatOp, hfin1, repeat_finalize_of_clear ext cfg hgen j _ hflag2]
  · simp [finalize_generic ext cfg hgen, hflag2]

/-- On the generic path `j + 1` initialize calls from a clear flag run the setup
routine once. -/
theorem repeat_initialize_of_clear (ext : Externs) (cfg : Config)
    (hgen : genericPath cfg = true) (hset : ext.SetsFlag) (j : Nat) (r : Proc)
    (hr : r.mem._cairo_mutex_initialized = false) :
    repeatOp (CAIRO_MUTEX_INITIALIZE ext cfg) (j + 1) r = some (afterSetup ext r) := by
  have hnew : (afterSetup ext r).mem._cairo_mutex_initialized = true := by
    rw [afterSetup_mem]; exact hset _
  simp [repeatOp, initialize_generic ext cfg hgen, hr,
    repeat_initialize_of_set ext cfg hgen j _ hnew]

/-! ## Run-time claims -/

/-- C7: under the generic initialization, whatever the flag was,
`CAIRO_MUTEX_INITIALIZE ()` returns, it invokes the setup routine if and only if
the flag was false (and otherwise changes nothing), and on return the flag is
true. -/
theorem generic_initialize_spec (native : String → List String → Memory → Memory)
    (cfg : Config) (hgen : genericPath cfg = true) (r : Proc) :
    ∃ r', CAIRO_MUTEX_INITIALIZE (specExterns native) cfg r = some r'
      ∧ (r'.calls = r.calls ++ [Call.routine Routine._cairo_mutex_initialize]
          ↔ r.mem._cairo_mutex_initialized = false)
      ∧ (setupRuns r' = setupRuns r + 1 ↔ r.mem._cairo_mutex_initialized = false)
      ∧ (r.mem._cairo_mutex_initialized = false → r' = afterSetup (specExterns native) r)
      ∧ (r.mem._cairo_mutex_initialized = true → r' = r)
      ∧ r'.mem._cairo_mutex_initialized = true :=
  initialize_of_setsFlag (specExterns native) cfg hgen (specExterns_setsFlag native) r

/-- Witness of C7: a Windows build at program start. -/
theorem generic_initialize_spec_witness :
    genericPath windowsCfg = true
    ∧ ∃ r', CAIRO_MUTEX_INITIALIZE (specExterns inertNative) windowsCfg (freshProc ["m"]) = some r'
      ∧ (r'.calls = (freshProc ["m"]).calls ++ [Call.routine Routine._cairo_mutex_initialize]
          ↔ (freshProc ["m"]).mem._cairo_mutex_initialized = false)
      ∧ (setupRuns r' = setupRuns (freshProc ["m"]) + 1
          ↔ (freshProc ["m"]).mem._cairo_mutex_initialized = false)
      ∧ ((freshProc ["m"]).mem._cairo_mutex_initialized = false
          → r' = afterSetup (specExterns inertNative) (freshProc ["m"]))
      ∧ ((freshProc ["m"]).mem._cairo_mutex_initialized = true → r' = freshProc ["m"])
      ∧ r'.mem._cairo_mutex_initialized = true :=
  ⟨by decide, generic_initialize_spec inertNative windowsCfg (by decide) (freshProc ["m"])⟩

/-- C8: under the generic initialization, `CAIRO_MUTEX_FINALIZE ()` returns, invokes
the teardown routine if and only if the flag is true, and leaves the flag false;
after one initialize, `k >= 1` consecutive finalize calls end in the state
reached by the first of them, with teardown run exactly once; and finalize on
a clear flag changes nothing. -/
theorem generic_finalize_spec (native : String → List String → Memory → Memory)
    (cfg : Config) (hgen : genericPath cfg = true) (k : Nat) (hk : 1 ≤ k) (r : Proc) :
    (∃ r', CAIRO_MUTEX_FINALIZE (specExterns native) cfg r = some r'
      ∧ (r'.calls = r.calls ++ [Call.routine Routine._cairo_mutex_finalize]
          ↔ r.mem._cairo_mutex_initialized = true)
      ∧ (teardownRuns r' = teardownRuns r + 1 ↔ r.mem._cairo_mutex_initialized = true)
      ∧ (r.mem._cairo_mutex_initialized = true → r' = afterTeardown (specExterns native) r)
      ∧ (r.mem._cairo_mutex_initialized = false → r' = r)
      ∧ r'.mem._cairo_mutex_initialized = false)
    ∧ (∃ r1 r2, CAIRO_MUTEX_INITIALIZE (specExterns native) cfg r = some r1
      ∧ CAIRO_MUTEX_FINALIZE (specExterns native) cfg r1 = some r2
      ∧ repeatOp (CAIRO_MUTEX_FINALIZE (specExterns native) cfg) k r1 = some r2
      ∧ teardownRuns r2 = teardownRuns r1 + 1
      ∧ setupRuns r2 = setupRuns r1
      ∧ CAIRO_MUTEX_FINALIZE (specExterns native) cfg r2 = some r2) := by
  obtain ⟨j, rfl⟩ : ∃ j, k = j + 1 := ⟨k - 1, by omega⟩
  exact ⟨finalize_of_clearsFlag _ cfg hgen (specExterns_clearsFlag native) r,
    finalize_after_initialize _ cfg hgen (specExterns_setsFlag native)
      (specExterns_clearsFlag native) j r⟩

/-- Witness of C8: a Windows build, three finalize calls after one initialize at
program start. -/
theorem generic_finalize_spec_witness :
    genericPath windowsCfg = true ∧ 1 ≤ 3
    ∧ (∃ r1 r2,
      CAIRO_MUTEX_INITIALIZE (specExterns inertNative) windowsCfg (freshProc ["m"]) = some r1
      ∧ CAIRO_MUTEX_FINALIZE (specExterns inertNative) windowsCfg r1 = some r2
      ∧ repeatOp (CAIRO_MUTEX_FINALIZE (specExterns inertNative) windowsCfg) 3 r1 = some r2
      ∧ teardownRuns r2 = teardownRuns r1 + 1
      ∧ setupRuns r2 = setupRuns r1
      ∧ CAIRO_MUTEX_FINALIZE (specExterns inertNative) windowsCfg r2 = some r2) :=
  ⟨by decide, by decide,
    (generic_finalize_spec inertNative windowsCfg (by decide) 3 (by decide) (freshProc ["m"])).2⟩

/-- C3 fails as stated: on a POSIX build `CAIRO_MUTEX_INITIALIZE ()` is the no-op of
line 72, so after one call from the un-initialized state the setup routine has
run zero times, not once. -/
theorem initialize_posix_runs_no_setup :
    selected posixCfg = some Backend.posix
    ∧ Backend.posix.supported = true
    ∧ (repeatOp (CAIRO_MUTEX_INITIALIZE (specExterns inertNative) posixCfg) 1
          (freshProc ["m"])).map setupRuns = some 0
    ∧ (repeatOp (CAIRO_MUTEX_INITIALIZE (specExterns inertNative) posixCfg) 1
          (freshProc ["m"])).map setupRuns ≠ some 1 := by
  decide

/-- C3 as amended: for every supported backend and every `n >= 1`, `n` calls of
`CAIRO_MUTEX_INITIALIZE ()` from a state with the flag clear return, and the setup
routine has run exactly once more on the critical-section and OS/2 semaphore
backends, and not at all on the disabled and POSIX backends, whose initialize is
a no-op. -/
theorem initialize_repeated_setup_count (native : String → List String → Memory → Memory)
    (cfg : Config) (b : Backend) (hsel : selected cfg = some b) (hsup : b.supported = true)
    (n : Nat) (hn : 1 ≤ n) (r : Proc) (hr : r.mem._cairo_mutex_initialized = false) :
    ∃ r', repeatOp (CAIRO_MUTEX_INITIALIZE (specExterns native) cfg) n r = some r'
      ∧ setupRuns r' = setupRuns r + (if b.needsRuntimeInit = true then 1 else 0) := by
  by_cases hneeds : b.needsRuntimeInit = true
  · have hgen : genericPath cfg = true :=
      (genericPath_iff_needsRuntimeInit cfg b hsel hsup).2 hneeds
    obtain ⟨j, rfl⟩ : ∃ j, n = j + 1 := ⟨n - 1, by omega⟩
    refine ⟨_, repeat_initialize_of_clear _ cfg hgen (specExterns_setsFlag native) j r hr, ?_⟩
    simp [hneeds, setupRuns_afterSetup]
  · have hgen : genericPath cfg = false := by
      cases hg : genericPath cfg with
      | false => rfl
      | true => exact absurd ((genericPath_iff_needsRuntimeInit cfg b hsel hsup).1 hg) hneeds
    refine ⟨r, repeat_of_fixed _ (fun r0 => static_initialize_noop _ cfg hgen r0) n r, ?_⟩
    simp [hneeds]

/-- Witness of C3 as amended: five initialize calls at the start of a Windows build. -/
theorem initialize_repeated_setup_count_witness :
    selected windowsCfg = some Backend.criticalSection
    ∧ Backend.criticalSection.supported = true ∧ 1 ≤ 5
    ∧ (freshProc ["m"]).mem._cairo_mutex_initialized = false
    ∧ ∃ r', repeatOp (CAIRO_MUTEX_INITIALIZE (specExterns inertNative) windowsCfg) 5
          (freshProc ["m"]) = some r'
      ∧ setupRuns r' = setupRuns (freshProc ["m"])
          + (if Backend.criticalSection.needsRuntimeInit = true then 1 else 0) :=
  ⟨by decide, by decide, by decide, rfl,
    initialize_repeated_setup_count inertNative windowsCfg Backend.criticalSection
      (by decide) (by decide) 5 (by decide) (freshProc ["m"]) rfl⟩

/-- C4: under the generic initialization, initialize; finalize; initialize from a
state with the flag clear returns, having run the setup routine exactly twice and
the teardown routine exactly once, the finalize in between having cleared the
flag. -/
theorem init_fini_init_round_trip (native : String → List String → Memory → Memory)
    (cfg : Config) (hgen : genericPath cfg = true)
    (r : Proc) (hr : r.mem._cairo_mutex_initialized = false) :
    ∃ r1 r2 r3, CAIRO_MUTEX_INITIALIZE (specExterns native) cfg r = some r1
      ∧ CAIRO_MUTEX_FINALIZE (specExterns native) cfg r1 = some r2
      ∧ CAIRO_MUTEX_INITIALIZE (specExterns native) cfg r2 = some r3
      ∧ runOps (specExterns native) cfg [Op.initializeOp, Op.finalizeOp, Op.initializeOp] r
          = some r3
      ∧ r1.mem._cairo_mutex_initialized = true
      ∧ r2.mem._cairo_mutex_initialized = false
      ∧ r3.mem._cairo_mutex_initialized = true
      ∧ setupRuns r1 = setupRuns r + 1
      ∧ setupRuns r3 = setupRuns r + 2
      ∧ teardownRuns r3 = teardownRuns r + 1 := by
  have h1 : (afterSetup (specExterns native) r).mem._cairo_mutex_initialized = true := rfl
  have h2 : (afterTeardown (specExterns native)
      (afterSetup (specExterns native) r)).mem._cairo_mutex_initialized = false := rfl
  have h3 : (afterSetup (specExterns native) (afterTeardown (specExterns native)
      (afterSetup (specExterns native) r))).mem._cairo_mutex_initialized = true := rfl
  have e1 : CAIRO_MUTEX_INITIALIZE (specExterns native) cfg r
      = some (afterSetup (specExterns native) r) := by
    simp [initialize_generic _ cfg hgen, hr]
  have e2 : CAIRO_MUTEX_FINALIZE (specExterns native) cfg (afterSetup (specExterns native) r)
      = some (afterTeardown (specExterns native) (afterSetup (specExterns native) r)) := by
    simp [finalize_generic _ cfg hgen, h1]
  have e3 : CAIRO_MUTEX_INITIALIZE (specExterns native) cfg
        (afterTeardown (specExterns native) (afterSetup (specExterns native) r))
      = some (afterSetup (specExterns native) (afterTeardown (specExterns native)
          (afterSetup (specExterns native) r))) := by
    simp [initialize_generic _ cfg hgen, h2]
  refine ⟨_, _, _, e1, e2, e3, ?_, h1, h2, h3, setupRuns_afterSetup _ r, ?_, ?_⟩
  · simp [runOps, runOp, e1, e2, e3]
  · rw [setupRuns_afterSetup, setupRuns_afterTeardown, setupRuns_afterSetup]
  · rw [teardownRuns_afterSetup, teardownRuns_afterTeardown, teardownRuns_afterSetup]

/-- Witness of C4: an OS/2 build at program start. -/
theorem init_fini_init_round_trip_witness :
    genericPath os2Cfg = true
    ∧ (freshProc ["m"]).mem._cairo_mutex_initialized = false
    ∧ ∃ r1 r2 r3, CAIRO_MUTEX_INITIALIZE (specExterns inertNative) os2Cfg (freshProc ["m"]) = some r1
      ∧ CAIRO_MUTEX_FINALIZE (specExterns inertNative) os2Cfg r1 = some r2
      ∧ CAIRO_MUTEX_INITIALIZE (specExterns inertNative) os2Cfg r2 = some r3
      ∧ runOps (specExterns inertNative) os2Cfg
          [Op.initializeOp, Op.finalizeOp, Op.initializeOp] (freshProc ["m"]) = some r3
      ∧ r1.mem._cairo_mutex_initialized = true
      ∧ r2.mem._cairo_mutex_initialized = false
      ∧ r3.mem._cairo_mutex_initialized = true
      ∧ setupRuns r1 = setupRuns (freshProc ["m"]) + 1
      ∧ setupRuns r3 = setupRuns (freshProc ["m"]) + 2
      ∧ teardownRuns r3 = teardownRuns (freshProc ["m"]) + 1 :=
  ⟨by decide, rfl,
    init_fini_init_round_trip inertNative os2Cfg (by decide) (freshProc ["m"]) rfl⟩

/-- C10: under the generic initialization, with a setup routine that sets the
flag and a teardown routine that clears it, every finite sequence of
`CAIRO_MUTEX_INITIALIZE` / `CAIRO_MUTEX_FINALIZE` calls from the un-initialized state
(flag clear, nothing called yet) runs to completion in a state where the number
of setup runs minus the number of teardown runs is 1 if the flag is true and 0
otherwise, and where the log consists of setup and teardown runs that strictly
alternate, beginning with a setup. -/
theorem setup_teardown_invariant (ext : Externs) (cfg : Config)
    (hgen : genericPath cfg = true) (hset : ext.SetsFlag) (hclr : ext.ClearsFlag)
    (ops : List Op) (mutexes : List (String × HandleState)) :
    ∃ r, runOps ext cfg ops ⟨⟨false, mutexes⟩, []⟩ = some r
      ∧ (setupRuns r : Int) - (teardownRuns r : Int)
          = (if r.mem._cairo_mutex_initialized = true then 1 else 0)
      ∧ r.calls = (routineCalls r.calls).map Call.routine
      ∧ alternates true (routineCalls r.calls) = true := by
  obtain ⟨r, added, hrun, hcalls, halt, hcount⟩ :=
    runOps_generic ext cfg hgen hset hclr ops ⟨⟨false, mutexes⟩, []⟩
  have hlog : r.calls = added.map Call.routine := by simpa using hcalls
  refine ⟨r, hrun, ?_, ?_, ?_⟩
  · have hs : setupRuns r = added.count Routine._cairo_mutex_initialize := by
      rw [setupRuns, hlog, count_map_routine]
    have ht : teardownRuns r = added.count Routine._cairo_mutex_finalize := by
      rw [teardownRuns, hlog, count_map_routine]
    rw [hs, ht]
    simp only [Bool.false_eq_true, if_false, Nat.add_zero] at hcount
    split <;> simp_all
  · rw [hlog, routineCalls_map]
  · rw [hlog, routineCalls_map]
    simpa using halt

/-- Witness of C10: a Windows build with the spec-modelled routines. -/
theorem setup_teardown_invariant_witness :
    genericPath windowsCfg = true
    ∧ (specExterns inertNative).SetsFlag ∧ (specExterns inertNative).ClearsFlag
    ∧ ∃ r, runOps (specExterns inertNative) windowsCfg
          [Op.finalizeOp, Op.initializeOp, Op.initializeOp, Op.finalizeOp, Op.finalizeOp,
            Op.initializeOp]
          ⟨⟨false, [("m", HandleState.declared)]⟩, []⟩ = some r
      ∧ (setupRuns r : Int) - (teardownRuns r : Int)
          = (if r.mem._cairo_mutex_initialized = true then 1 else 0)
      ∧ r.calls = (routineCalls r.calls).map Call.routine
      ∧ alternates true (routineCalls r.calls) = true :=
  ⟨by decide, fun _ => rfl, fun _ => rfl,
    setup_teardown_invariant (specExterns inertNative) windowsCfg (by decide)
      (fun _ => rfl) (fun _ => rfl)
      [Op.finalizeOp, Op.initializeOp, Op.initializeOp, Op.finalizeOp, Op.finalizeOp,
        Op.initializeOp]
      [("m", HandleState.declared)]⟩

/-- C5, evaluated on the code: when `CAIRO_NO_MUTEX` is true, whatever the other
flags, the handle type is the placeholder `int`, and `CAIRO_MUTEX_INITIALIZE ()`,
`CAIRO_MUTEX_LOCK (name)`, `CAIRO_MUTEX_UNLOCK (name)` and `CAIRO_MUTEX_FINI (name)`
return and leave the process state, the log of calls included, as it was,
whatever the code outside the header does.  `CAIRO_MUTEX_FINALIZE ()` does not:
line 169 defines the macro without a parameter list, so the call is not replaced
by a statement; only the bare `CAIRO_MUTEX_FINALIZE` is the no-op. -/
theorem disabled_operations_finalize_slip (cfg : Config) (h : cfg.CAIRO_NO_MUTEX = true)
    (ext : Externs) (name : String) (r : Proc) :
    (header cfg).typedefs = [(60, CType.int)]
    ∧ CAIRO_MUTEX_INITIALIZE ext cfg r = some r
    ∧ CAIRO_MUTEX_LOCK ext cfg name r = some r
    ∧ CAIRO_MUTEX_UNLOCK ext cfg name r = some r
    ∧ CAIRO_MUTEX_FINI ext cfg name r = some r
    ∧ (header cfg).lookup MacroName.CAIRO_MUTEX_FINALIZE
        = some ⟨169, none, Repl.alias MacroName.CAIRO_MUTEX_NOOP⟩
    ∧ CAIRO_MUTEX_FINALIZE ext cfg r = none
    ∧ CAIRO_MUTEX_FINALIZE_bare ext cfg r = some r := by
  have hgen := disabled_not_generic cfg h
  have hl := disabled_lookups cfg h
  have hh := disabled_handle_operations ext cfg h name r
  have hf := static_finalize_spellings ext cfg hgen r
  exact ⟨hl.1, static_initialize_noop ext cfg hgen r, hh.1, hh.2.1, hh.2.2,
    hl.2.2.2.2.2.2, hf.1, hf.2⟩

/-- The failing input of C5: `CAIRO_NO_MUTEX` on a platform that has pthreads, the
statement `CAIRO_MUTEX_FINALIZE ();` in a state where the flag happens to be set. -/
theorem disabled_operations_finalize_slip_witness :
    disabledCfg.CAIRO_NO_MUTEX = true
    ∧ CAIRO_MUTEX_INITIALIZE (specExterns inertNative) disabledCfg
        ⟨⟨true, [("m", HandleState.ready)]⟩, []⟩ = some ⟨⟨true, [("m", HandleState.ready)]⟩, []⟩
    ∧ CAIRO_MUTEX_LOCK (specExterns inertNative) disabledCfg "m"
        ⟨⟨true, [("m", HandleState.ready)]⟩, []⟩ = some ⟨⟨true, [("m", HandleState.ready)]⟩, []⟩
    ∧ CAIRO_MUTEX_UNLOCK (specExterns inertNative) disabledCfg "m"
        ⟨⟨true, [("m", HandleState.ready)]⟩, []⟩ = some ⟨⟨true, [("m", HandleState.ready)]⟩, []⟩
    ∧ CAIRO_MUTEX_FINI (specExterns inertNative) disabledCfg "m"
        ⟨⟨true, [("m", HandleState.ready)]⟩, []⟩ = some ⟨⟨true, [("m", HandleState.ready)]⟩, []⟩
    ∧ (header disabledCfg).lookup MacroName.CAIRO_MUTEX_FINALIZE
        = some ⟨169, none, Repl.alias MacroName.CAIRO_MUTEX_NOOP⟩
    ∧ CAIRO_MUTEX_FINALIZE (specExterns inertNative) disabledCfg
        ⟨⟨true, [("m", HandleState.ready)]⟩, []⟩ = none
    ∧ CAIRO_MUTEX_FINALIZE_bare (specExterns inertNative) disabledCfg
        ⟨⟨true, [("m", HandleState.ready)]⟩, []⟩ = some ⟨⟨true, [("m", HandleState.ready)]⟩, []⟩ :=
  ⟨rfl, (disabled_operations_finalize_slip disabledCfg rfl (specExterns inertNative) "m"
    ⟨⟨true, [("m", HandleState.ready)]⟩, []⟩).2⟩

/-- C6 fails as stated: on a BeOS platform the branch of lines 121-134 is selected,
it is not one of the critical-section and OS/2 semaphore backends, and yet line
173 holds, the flag is declared and `CAIRO_MUTEX_INITIALIZE` / `CAIRO_MUTEX_FINALIZE`
are the flag-guarded definitions of lines 175 and 180. -/
theorem generic_path_active_on_beos :
    selected beosCfg = some Backend.beos
    ∧ Backend.beos.needsRuntimeInit = false
    ∧ genericPath beosCfg = true
    ∧ Decl._cairo_mutex_initialized ∈ (header beosCfg).decls
    ∧ (header beosCfg).lookup MacroName.CAIRO_MUTEX_INITIALIZE
        = some ⟨175, some [], Repl.stmt (Stmt.doWhile0
            (Stmt.ifFlag false (Stmt.call Routine._cairo_mutex_initialize)))⟩
    ∧ (header beosCfg).lookup MacroName.CAIRO_MUTEX_FINALIZE
        = some ⟨180, some [], Repl.stmt (Stmt.doWhile0
            (Stmt.ifFlag true (Stmt.call Routine._cairo_mutex_finalize)))⟩ := by
  decide

/-- C6 as amended: the generic initialization is active exactly when the branch
taken defines no `CAIRO_MUTEX_INITIALIZE`, that is, when `CAIRO_NO_MUTEX` and
`HAVE_PTHREAD_H` are both false: for every selection other than the disabled and
POSIX backends, and, among the four supported backends, exactly for the
critical-section and OS/2 semaphore ones.  When it is active the flag and the two
routines are declared, `CAIRO_MUTEX_INITIALIZE ()` calls the setup routine when the
flag is false and does nothing otherwise, and `CAIRO_MUTEX_FINALIZE ()` calls the
teardown routine when the flag is true and does nothing otherwise.  When it is
not, neither the flag nor the routines are declared and `CAIRO_MUTEX_INITIALIZE ()`
is a no-op. -/
theorem generic_path_iff_no_static_backend (cfg : Config) :
    (genericPath cfg = true ↔ (cfg.CAIRO_NO_MUTEX = false ∧ cfg.HAVE_PTHREAD_H = false))
    ∧ (genericPath cfg = true ↔
        (selected cfg ≠ some Backend.disabled ∧ selected cfg ≠ some Backend.posix))
    ∧ (∀ b : Backend, selected cfg = some b → b.supported = true →
        (genericPath cfg = true ↔ (b = Backend.criticalSection ∨ b = Backend.os2Semaphore)))
    ∧ (genericPath cfg = true →
        Decl._cairo_mutex_initialized ∈ (header cfg).decls
        ∧ Decl._cairo_mutex_initialize ∈ (header cfg).decls
        ∧ Decl._cairo_mutex_finalize ∈ (header cfg).decls
        ∧ (header cfg).lookup MacroName.CAIRO_MUTEX_INITIALIZE
            = some ⟨175, some [], Repl.stmt (Stmt.doWhile0
                (Stmt.ifFlag false (Stmt.call Routine._cairo_mutex_initialize)))⟩
        ∧ (header cfg).lookup MacroName.CAIRO_MUTEX_FINALIZE
            = some ⟨180, some [], Repl.stmt (Stmt.doWhile0
                (Stmt.ifFlag true (Stmt.call Routine._cairo_mutex_finalize)))⟩
        ∧ ∀ (ext : Externs) (r : Proc),
            CAIRO_MUTEX_INITIALIZE ext cfg r
              = some (if r.mem._cairo_mutex_initialized = false then
                  ⟨ext.routine Routine._cairo_mutex_initialize r.mem,
                    r.calls ++ [Call.routine Routine._cairo_mutex_initialize]⟩
                else r)
            ∧ CAIRO_MUTEX_FINALIZE ext cfg r
              = some (if r.mem._cairo_mutex_initialized = true then
                  ⟨ext.routine Routine._cairo_mutex_finalize r.mem,
                    r.calls ++ [Call.routine Routine._cairo_mutex_finalize]⟩
                else r))
    ∧ (genericPath cfg = false →
        Decl._cairo_mutex_initialized ∉ (header cfg).decls
        ∧ Decl._cairo_mutex_initialize ∉ (header cfg).decls
        ∧ Decl._cairo_mutex_finalize ∉ (header cfg).decls
        ∧ ∀ (ext : Externs) (r : Proc), CAIRO_MUTEX_INITIALIZE ext cfg r = some r) := by
  refine ⟨genericPath_iff_flags cfg, ?_, ?_, ?_, ?_⟩
  · rcases cfg with ⟨a, b, c, d, e⟩
    cases a <;> cases b <;> cases c <;> cases d <;> cases e <;> decide
  · intro b hsel hsup
    rw [genericPath_iff_needsRuntimeInit cfg b hsel hsup]
    cases b <;> decide
  · intro hgen
    obtain ⟨h1, h2, h3, h4, h5⟩ := generic_lookups cfg hgen
    exact ⟨h3, h4, h5, h1, h2, fun ext r =>
      ⟨initialize_generic ext cfg hgen r, finalize_generic ext cfg hgen r⟩⟩
  · intro hgen
    obtain ⟨h1, h2, h3, -, -⟩ := static_lookups cfg hgen
    exact ⟨h1, h2, h3, fun ext r => static_initialize_noop ext cfg hgen r⟩

end CairoMutex
